import Mathlib

/-!
Shallow embedding of the ABayes repository (src/abayes/abayes.py and
src/miniab/miniab.py): a thin glue layer that renders a Stan model from a
likelihood-keyed template, caches the compiled artifact under an MD5
fingerprint of the (priors, likelihood) configuration, reshapes two-group
data for the external sampler, and guards the result accessors.

External collaborators (hashlib.md5, json.dumps, the cmdstanpy sampler, the
arviz summary library, jinja2 templates, the filesystem cache directory)
are modelled explicitly: md5 and json.dumps are implemented faithfully, the
sampler is an oracle function supplied as an argument, the cache directory
is the list of file names it contains, and file writes are returned as
explicit effects.
-/

/- ---------------------------------------------------------------------
   Python-level values and errors
--------------------------------------------------------------------- -/

/-- Python exceptions raised by the code paths the claims mention. -/
inductive PyError where
  | valueError (msg : String)
  | attributeError (msg : String)
  | nameError (msg : String)
deriving DecidableEq

/- ---------------------------------------------------------------------
   hashlib.md5 (RFC 1321), over Nat with explicit reduction mod 2^32.
   Used by ABayes._hash via .hexdigest().
--------------------------------------------------------------------- -/

/-- UTF-8 encoding of one character, as byte values. -/
def charUtf8 (c : Char) : List Nat :=
  let n := c.toNat
  if n < 128 then [n]
  else if n < 2048 then [192 + n / 64, 128 + n % 64]
  else if n < 65536 then [224 + n / 4096, 128 + (n / 64) % 64, 128 + n % 64]
  else [240 + n / 262144, 128 + (n / 4096) % 64, 128 + (n / 64) % 64, 128 + n % 64]

/-- UTF-8 encoding of a string (what Python's str.encode("utf-8") produces). -/
def utf8Bytes (s : String) : List Nat :=
  s.data.flatMap charUtf8

/-- MD5 round constants, K[i] = floor(abs(sin(i+1)) * 2^32). -/
def md5K : List Nat :=
  [3614090360, 3905402710, 606105819, 3250441966, 4118548399, 1200080426, 2821735955, 4249261313,
   1770035416, 2336552879, 4294925233, 2304563134, 1804603682, 4254626195, 2792965006, 1236535329,
   4129170786, 3225465664, 643717713, 3921069994, 3593408605, 38016083, 3634488961, 3889429448,
   568446438, 3275163606, 4107603335, 1163531501, 2850285829, 4243563512, 1735328473, 2368359562,
   4294588738, 2272392833, 1839030562, 4259657740, 2763975236, 1272893353, 4139469664, 3200236656,
   681279174, 3936430074, 3572445317, 76029189, 3654602809, 3873151461, 530742520, 3299628645,
   4096336452, 1126891415, 2878612391, 4237533241, 1700485571, 2399980690, 4293915773, 2240044497,
   1873313359, 4264355552, 2734768916, 1309151649, 4149444226, 3174756917, 718787259, 3951481745]

/-- MD5 per-round left-rotation amounts. -/
def md5S : List Nat :=
  [7, 12, 17, 22, 7, 12, 17, 22, 7, 12, 17, 22, 7, 12, 17, 22,
   5, 9, 14, 20, 5, 9, 14, 20, 5, 9, 14, 20, 5, 9, 14, 20,
   4, 11, 16, 23, 4, 11, 16, 23, 4, 11, 16, 23, 4, 11, 16, 23,
   6, 10, 15, 21, 6, 10, 15, 21, 6, 10, 15, 21, 6, 10, 15, 21]

/-- Left rotation of a 32-bit word. -/
def rotl32 (x n : Nat) : Nat :=
  ((x <<< n) % 4294967296) ||| (x >>> (32 - n))

/-- MD5 padding: append 0x80, zeros to 56 mod 64, then the 64-bit
little-endian bit length. -/
def md5Pad (bytes : List Nat) : List Nat :=
  let L := bytes.length
  let k := (119 - L % 64) % 64
  let bitLen := (8 * L) % 18446744073709551616
  bytes ++ [128] ++ List.replicate k 0 ++
    ((List.range 8).map fun i => (bitLen >>> (8 * i)) % 256)

/-- Split a byte list into 64-byte chunks; structural recursion on a fuel
bound (each step consumes at least one byte, so the list length is enough
fuel). -/
def md5ChunksAux : Nat → List Nat → List (List Nat)
  | 0, _ => []
  | _ + 1, [] => []
  | fuel + 1, b :: rest =>
      (b :: rest).take 64 :: md5ChunksAux fuel ((b :: rest).drop 64)

/-- Split the padded message into 64-byte chunks. -/
def md5Chunks (l : List Nat) : List (List Nat) :=
  md5ChunksAux l.length l

/-- Little-endian 32-bit word g of a 64-byte chunk. -/
def md5Word (chunk : List Nat) (g : Nat) : Nat :=
  chunk.getD (4 * g) 0 + 256 * chunk.getD (4 * g + 1) 0 +
    65536 * chunk.getD (4 * g + 2) 0 + 16777216 * chunk.getD (4 * g + 3) 0

/-- One MD5 round: mixes (a, b, c, d) with word g of the chunk. -/
def md5Round (chunk : List Nat) (st : Nat × Nat × Nat × Nat) (i : Nat) :
    Nat × Nat × Nat × Nat :=
  let (a, b, c, d) := st
  let f :=
    if i < 16 then (b &&& c) ||| ((4294967295 ^^^ b) &&& d)
    else if i < 32 then (d &&& b) ||| ((4294967295 ^^^ d) &&& c)
    else if i < 48 then b ^^^ c ^^^ d
    else c ^^^ (b ||| (4294967295 ^^^ d))
  let g :=
    if i < 16 then i
    else if i < 32 then (5 * i + 1) % 16
    else if i < 48 then (3 * i + 5) % 16
    else (7 * i) % 16
  let sum := (f + a + md5K.getD i 0 + md5Word chunk g) % 4294967296
  (d, (b + rotl32 sum (md5S.getD i 0)) % 4294967296, b, c)

/-- Process one 64-byte chunk into the running MD5 state. -/
def md5Chunk (st : Nat × Nat × Nat × Nat) (chunk : List Nat) :
    Nat × Nat × Nat × Nat :=
  let (a0, b0, c0, d0) := st
  let (a, b, c, d) := (List.range 64).foldl (md5Round chunk) st
  ((a0 + a) % 4294967296, (b0 + b) % 4294967296,
   (c0 + c) % 4294967296, (d0 + d) % 4294967296)

/-- The four 32-bit words of the MD5 digest of a byte sequence. -/
def md5Digest (bytes : List Nat) : Nat × Nat × Nat × Nat :=
  (md5Chunks (md5Pad bytes)).foldl md5Chunk
    (1732584193, 4023233417, 2562383102, 271733878)

/-- Lowercase hex digit. -/
def hexDigit (n : Nat) : String :=
  (["0", "1", "2", "3", "4", "5", "6", "7", "8", "9",
    "a", "b", "c", "d", "e", "f"]).getD n "0"

/-- Two lowercase hex digits of one byte. -/
def hexByte (n : Nat) : String :=
  hexDigit (n / 16 % 16) ++ hexDigit (n % 16)

/-- Little-endian byte decomposition of a 32-bit word. -/
def wordLEBytes (w : Nat) : List Nat :=
  [w % 256, w / 256 % 256, w / 65536 % 256, w / 16777216 % 256]

/-- Python hashlib.md5(bytes).hexdigest(): 32 lowercase hex characters. -/
def md5Hexdigest (bytes : List Nat) : String :=
  let (a, b, c, d) := md5Digest bytes
  String.join ((wordLEBytes a ++ wordLEBytes b ++ wordLEBytes c ++ wordLEBytes d).map hexByte)

/- ---------------------------------------------------------------------
   json.dumps for the value shape ABayes._hash serializes:
   a 2-tuple (dict of str to str, str), with Python's default separators
   and ensure_ascii=True escaping.
--------------------------------------------------------------------- -/

/-- Four lowercase hex digits (for a \u escape). -/
def hex4 (n : Nat) : String :=
  hexDigit (n / 4096 % 16) ++ hexDigit (n / 256 % 16) ++
    hexDigit (n / 16 % 16) ++ hexDigit (n % 16)

/-- json.dumps escaping of one character (ensure_ascii=True). -/
def jsonEscapeChar (c : Char) : String :=
  if c = Char.ofNat 34 then "\\\""
  else if c = Char.ofNat 92 then "\\\\"
  else if c = Char.ofNat 10 then "\\n"
  else if c = Char.ofNat 13 then "\\r"
  else if c = Char.ofNat 9 then "\\t"
  else if c = Char.ofNat 8 then "\\b"
  else if c = Char.ofNat 12 then "\\f"
  else if c.toNat < 32 then "\\u" ++ hex4 c.toNat
  else if c.toNat < 127 then String.singleton c
  else if c.toNat < 65536 then "\\u" ++ hex4 c.toNat
  else "\\u" ++ hex4 (55296 + (c.toNat - 65536) / 1024) ++
       "\\u" ++ hex4 (56320 + (c.toNat - 65536) % 1024)

/-- json.dumps rendering of a Python str. -/
def jsonStr (s : String) : String :=
  "\"" ++ String.join (s.data.map jsonEscapeChar) ++ "\""

/-- A priors mapping: Python dict from parameter name to prior expression,
in insertion order (Python 3.7+ dicts preserve it). -/
def Priors : Type := List (String × String)

/-- json.dumps rendering of a str-to-str dict. -/
def jsonDict (ps : Priors) : String :=
  "\x7b" ++
    String.intercalate ", " (ps.map fun kv => jsonStr kv.1 ++ ": " ++ jsonStr kv.2) ++
  "\x7d"

/-- json.dumps of the tuple (priors, likelihood); Python serializes a tuple
as a JSON array. -/
def jsonDumpsPair (priors : Priors) (likelihood : String) : String :=
  "[" ++ jsonDict priors ++ ", " ++ jsonStr likelihood ++ "]"

/- ---------------------------------------------------------------------
   Source constants (abayes.py)
--------------------------------------------------------------------- -/

/-- DEFAULT_PRIORS from abayes.py line 25. -/
def DEFAULT_PRIORS : Priors :=
  [("mu", "normal(0, 1)"), ("sigma", "normal(0, 1)")]

/-- ABayes._hash (abayes.py lines 109-110):
md5(json.dumps(tuple((self.priors, self.likelihood))).encode("utf-8")).hexdigest().
Takes the instance fields it reads as arguments. -/
def ABayes._hash (priors : Priors) (likelihood : String) : String :=
  md5Hexdigest (utf8Bytes (jsonDumpsPair priors likelihood))

/- ---------------------------------------------------------------------
   Template registry and renderer.

   The template files under abayes/templates/distributions and the module
   abayes/templates/distributions.py (which exports LIKELIHOODS) are not
   part of the two source files, so they are modelled from the spec.
--------------------------------------------------------------------- -/

/-- A model template: literal text interleaved with named slots that are
filled from the priors mapping. -/
inductive TemplatePart where
  | lit (s : String)
  | priorSlot (name : String)

/-- Modelled from the spec: "Render the template by substituting the
prior-expression mapping into named slots." A slot takes the prior
expression registered under its name. -/
def renderTemplate (t : List TemplatePart) (priors : Priors) : String :=
  String.join (t.map fun p =>
    match p with
    | .lit s => s
    | .priorSlot name => ((priors.lookup name).getD ""))

/-- Modelled from the spec: the template text for the continuous (normal)
likelihood family; the repository ships it as a file, absent from src/. -/
def normalTemplate : List TemplatePart :=
  [.lit "// normal likelihood model\nmu ~ ", .priorSlot "mu",
   .lit ";\nsigma ~ ", .priorSlot "sigma", .lit ";\n"]

/-- Modelled from the spec: the template text for the binary (bernoulli)
likelihood family; the repository ships it as a file, absent from src/. -/
def bernoulliTemplate : List TemplatePart :=
  [.lit "// bernoulli likelihood model\nmu ~ ", .priorSlot "mu", .lit ";\n"]

/-- Modelled from the spec: LIKELIHOODS, the list of likelihood names
discovered at startup by listing the template directory (base.stan
excluded). The spec names the normal and bernoulli families. -/
def LIKELIHOODS : List String := ["normal", "bernoulli"]

/-- Modelled from the spec: ENVIRONMENT.get_template, looking up the
template registered for a likelihood name; none when no template file
matches (jinja2 raises TemplateNotFound, caught by _render_model). -/
def getTemplate (name : String) : Option (List TemplatePart) :=
  if name = "normal" then some normalTemplate
  else if name = "bernoulli" then some bernoulliTemplate
  else none

/-- Python str.lower(), character by character (the likelihood names in
play are ASCII, where Char.toLower agrees with Python). -/
def pyLower (s : String) : String :=
  String.mk (s.data.map Char.toLower)

/-- Python repr of a list of strings, as an f-string formats LIKELIHOODS. -/
def pyReprStrList (l : List String) : String :=
  "[" ++ String.intercalate ", " (l.map fun s => "\x27" ++ s ++ "\x27") ++ "]"

/-- The message of the ValueError raised by ABayes._render_model
(abayes.py lines 82-83). -/
def unsupportedLikelihoodMsg (likelihood : String) : String :=
  "Cannot build model for likelihood " ++ likelihood ++
    ".\nLikelihoods available are " ++ pyReprStrList LIKELIHOODS ++ "."

/-- ABayes._render_model (abayes.py lines 78-86): look up the template for
the lowercased likelihood name ("distributions/" prefix and ".stan" suffix
of the lookup key are dropped in the model); on TemplateNotFound raise a
ValueError naming the likelihood and listing LIKELIHOODS; otherwise render
the template with the priors. -/
def ABayes._render_model (likelihood : String) (priors : Priors) :
    Except PyError String :=
  match getTemplate (pyLower likelihood) with
  | some t => .ok (renderTemplate t priors)
  | none => .error (.valueError (unsupportedLikelihoodMsg likelihood))

/- ---------------------------------------------------------------------
   Artifact cache and compile
--------------------------------------------------------------------- -/

/-- Modelled from the spec: CACHE_LOCATION, the filesystem cache directory
imported from the missing abayes._globals module; its concrete path does
not matter to any claim. -/
def CACHE_LOCATION : String := ".abayes"

/-- The stan_file argument handed to csp.CmdStanModel: ABayes passes a path
string; MiniAb passes the return value of write(), a character count. -/
inductive StanFileArg where
  | path (p : String)
  | count (n : Nat)
deriving DecidableEq

/-- The csp.CmdStanModel the compile step returns: built either from a
source file (triggering compilation) or from a cached executable. -/
inductive ModelRef where
  | fromStanFile (arg : StanFileArg)
  | fromExeFile (p : String)
deriving DecidableEq

/-- Python truthiness of an Optional[bool] (None and False are falsy). -/
def pyTruthy : Option Bool → Bool
  | none => false
  | some b => b

/-- What one call to compile does: whether _render_model ran, which file
was written with which contents (open(path, "w") truncates the file before
the rendered text is computed, so a failed render still leaves an empty
file), and the model returned or the exception raised. -/
structure CompileOutcome where
  rendered : Bool
  written : Option (String × String)
  result : Except PyError ModelRef

/-- ABayes.compile (abayes.py lines 68-76). The cache directory contents
(os.listdir(CACHE_LOCATION)) are passed as the list of file names it
holds. If force is truthy or no file named hash + ".stan" is cached, the
model is rendered, written to that file, and compiled from it; otherwise
the cached executable named by the bare hash is reused. -/
def ABayes.compile (likelihood : String) (priors : Priors)
    (force : Option Bool) (cacheDir : List String) : CompileOutcome :=
  let stan_file := ABayes._hash priors likelihood ++ ".stan"
  if pyTruthy force || !(cacheDir.contains stan_file) then
    let stan_file_path := CACHE_LOCATION ++ "/" ++ stan_file
    match ABayes._render_model likelihood priors with
    | .ok rendered =>
        ⟨true, some (stan_file_path, rendered), .ok (.fromStanFile (.path stan_file_path))⟩
    | .error e => ⟨true, some (stan_file_path, ""), .error e⟩
  else
    ⟨false, none, .ok (.fromExeFile (CACHE_LOCATION ++ "/" ++ ABayes._hash priors likelihood))⟩

/- ---------------------------------------------------------------------
   ABayes instance state, constructor, fit and result accessors.

   The external sampler result (csp.CmdStanMCMC) carries an abstract draws
   payload of type alpha, exposed by its stan_variables() method; the
   sampler itself is an oracle function passed to fit.
--------------------------------------------------------------------- -/

/-- The sampler's result object; stan_variables is the per-variable draws
payload it exposes. -/
structure CmdStanMCMC (alpha : Type) where
  stan_variables : alpha
deriving DecidableEq

/-- az.from_cmdstanpy: the converted diagnostics object, wrapping the
sampler result it was built from. -/
structure InferenceData (alpha : Type) where
  from_cmdstanpy : CmdStanMCMC alpha
deriving DecidableEq

/-- az.summary(inference_data, var_names=...): the summary table, recorded
as the diagnostics object it summarizes and the variable list requested. -/
structure AzSummary (alpha : Type) where
  inference_data : InferenceData alpha
  var_names : List String
deriving DecidableEq

/-- Instance state of ABayes. __init__ (lines 45-49) sets _likelihood,
_priors, model and _fit; draws and summary are functools.cached_property
(lines 93, 98), so the instance also carries their caches, empty until the
first successful access and never cleared afterwards. The seed argument is
accepted and discarded, so no field holds it. -/
structure ABayesState (alpha : Type) where
  _likelihood : String
  _priors : Priors
  model : ModelRef
  _fit : Option (CmdStanMCMC alpha)
  draws_cache : Option alpha
  summary_cache : Option (AzSummary alpha)

/-- ABayes.__init__ (abayes.py lines 45-49): store likelihood and priors,
compile (which may raise at render time), start unfit. The seed parameter
is never read. -/
def ABayes.init (alpha : Type) (likelihood : String) (priors : Priors)
    (seed : Option Int) (force_compile : Option Bool) (cacheDir : List String) :
    Except PyError (ABayesState alpha) :=
  match (ABayes.compile likelihood priors force_compile cacheDir).result with
  | .error e => .error e
  | .ok m => .ok ⟨likelihood, priors, m, none, none, none⟩

/-- A Python object passed to fit: a mapping (its ordered key/value pairs),
a two-or-more-element sequence such as a tuple or list of vectors, or an
object with no __iter__ at all. -/
inductive PyData (beta : Type) where
  | dict (kvs : List (String × List beta))
  | tuple (vs : List (List beta))
  | nonIterable

/-- hasattr(data, "\x5f\x5fiter\x5f\x5f"): mappings and sequences iterate,
the nonIterable object does not. -/
def hasIterProtocol : {beta : Type} → PyData beta → Bool
  | _, .nonIterable => false
  | _, _ => true

/-- Python tuple unpacking y1, y2 = l: exactly two elements, else a
ValueError with CPython's message. -/
def unpack2 {gamma : Type} : List gamma → Except PyError (gamma × gamma)
  | [y1, y2] => .ok (y1, y2)
  | [] => .error (.valueError "not enough values to unpack (expected 2, got 0)")
  | [_] => .error (.valueError "not enough values to unpack (expected 2, got 1)")
  | _ => .error (.valueError "too many values to unpack (expected 2)")

/-- The combined record fit submits to the external sampler: clean_data =
N (total count), j (group labels), y (stacked observations). -/
structure CleanData (beta : Type) where
  N : Nat
  j : List Nat
  y : List beta
deriving DecidableEq

/-- ABayes.fit (abayes.py lines 55-66). The external sampler
self.model.sample is the oracle argument; fit hands it the model, the
combined record, the passthrough keyword options and show_console=True.
On success the returned state has _fit replaced by the sampler result; an
exception (returned as .error) propagates before the assignment to _fit,
leaving the instance unchanged. -/
def ABayes.fit {alpha beta kappa : Type}
    (sampler : ModelRef → CleanData beta → kappa → Bool → CmdStanMCMC alpha)
    (st : ABayesState alpha) (data : PyData beta) (kw : kappa) :
    Except PyError (ABayesState alpha) :=
  if hasIterProtocol data = false then
    .error (.valueError "Data passed to MiniAb.fit must be an iterable.")
  else
    let pair :=
      match data with
      | .dict kvs => unpack2 (kvs.map Prod.snd)
      | .tuple vs => unpack2 vs
      | .nonIterable => unpack2 []
    match pair with
    | .error e => .error e
    | .ok (y1, y2) =>
      let y := y1 ++ y2
      let _j := List.replicate y1.length 1 ++ List.replicate y2.length 2
      let clean_data : CleanData beta := ⟨y1.length + y2.length, _j, y⟩
      .ok { st with _fit := some (sampler st.model clean_data kw true) }

/-- ABayes._check_fit_exists (abayes.py lines 112-116). -/
def ABayes._check_fit_exists {alpha : Type} (st : ABayesState alpha) :
    Except PyError Bool :=
  match st._fit with
  | none => .error (.attributeError "The model has not been fit yet.")
  | some _ => .ok true

/-- ABayes.inference_data (abayes.py lines 88-91): a plain property, no
cache; checks the fit exists then converts the sampler result. -/
def ABayes.inference_data {alpha : Type} (st : ABayesState alpha) :
    Except PyError (InferenceData alpha) :=
  match ABayes._check_fit_exists st with
  | .error e => .error e
  | .ok _ =>
    match st._fit with
    | none => .error (.attributeError "The model has not been fit yet.")
    | some f => .ok ⟨f⟩

/-- ABayes.draws (abayes.py lines 93-96): a cached_property. A cached
value is returned as is, bypassing the guard; otherwise the guard runs,
then the draws are computed and cached. Returns the value together with
the possibly updated instance state. -/
def ABayes.draws {alpha : Type} (st : ABayesState alpha) :
    Except PyError (alpha × ABayesState alpha) :=
  match st.draws_cache with
  | some v => .ok (v, st)
  | none =>
    match ABayes._check_fit_exists st with
    | .error e => .error e
    | .ok _ =>
      match st._fit with
      | none => .error (.attributeError "The model has not been fit yet.")
      | some f => .ok (f.stan_variables, { st with draws_cache := some f.stan_variables })

/-- The variable list ABayes.summary requests (abayes.py lines 101-105):
mu and mu_diff always; sigma and sigma_diff for the normal likelihood;
mu_prob and mu_prob_diff for the bernoulli likelihood. -/
def ABayes.summaryVariables (likelihood : String) : List String :=
  let vars := ["mu", "mu_diff"]
  let vars := if likelihood = "normal" then vars ++ ["sigma", "sigma_diff"] else vars
  let vars := if likelihood = "bernoulli" then vars ++ ["mu_prob", "mu_prob_diff"] else vars
  vars

/-- ABayes.summary (abayes.py lines 98-107): a cached_property. A cached
table is returned as is; otherwise the guard runs, the variable list is
built from the likelihood, and az.summary is called on the diagnostics
object with those var_names; the table is cached. -/
def ABayes.summary {alpha : Type} (st : ABayesState alpha) :
    Except PyError (AzSummary alpha × ABayesState alpha) :=
  match st.summary_cache with
  | some v => .ok (v, st)
  | none =>
    match ABayes._check_fit_exists st with
    | .error e => .error e
    | .ok _ =>
      match ABayes.inference_data st with
      | .error e => .error e
      | .ok idata =>
        let tbl : AzSummary alpha := ⟨idata, ABayes.summaryVariables st._likelihood⟩
        .ok (tbl, { st with summary_cache := some tbl })

/- ---------------------------------------------------------------------
   MiniAb (src/miniab/miniab.py), the near-duplicate sketch.
--------------------------------------------------------------------- -/

/-- MiniAb._hash (miniab.py lines 70-71): returns str(1234), a fixed
placeholder that reads neither the priors nor the likelihood. -/
def MiniAb._hash (likelihood : String) (priors : Priors) : String :=
  "1234"

/-- The exception MiniAb._render_model actually raises (miniab.py lines
52-56): the body looks up the undefined global name env (the module
defines ENVIRONMENT instead), raising a NameError; the handler clause then
evaluates TemplateNotFoundError, also undefined (the import is named
TemplateNotFound), so the NameError that propagates is about that name. It
happens for every likelihood, supported or not. -/
def miniabRenderError : PyError :=
  .nameError ("name \x27TemplateNotFoundError\x27 is not defined")

/-- MiniAb._render_model (miniab.py lines 51-59): always raises, see
miniabRenderError. -/
def MiniAb._render_model (likelihood : String) (priors : Priors) :
    Except PyError String :=
  .error miniabRenderError

/-- MiniAb's cache location (miniab.py lines 9-10): ROOT / ".miniab". -/
def MINIAB_CACHE_LOCATION : String := ".miniab"

/-- MiniAb.compile (miniab.py lines 44-49): if a file named by the bare
hash is cached, reuse the executable; otherwise open the hash-named file
(truncating it), render (which raises, leaving the file empty), write, and
hand CmdStanModel the return value of write() - the character count, not
the file path. -/
def MiniAb.compile (likelihood : String) (priors : Priors)
    (cacheDir : List String) : CompileOutcome :=
  if cacheDir.contains (MiniAb._hash likelihood priors) then
    ⟨false, none,
     .ok (.fromExeFile (MINIAB_CACHE_LOCATION ++ "/" ++ MiniAb._hash likelihood priors))⟩
  else
    match MiniAb._render_model likelihood priors with
    | .ok rendered =>
        ⟨true, some (MINIAB_CACHE_LOCATION ++ "/" ++ MiniAb._hash likelihood priors, rendered),
         .ok (.fromStanFile (.count rendered.length))⟩
    | .error e =>
        ⟨true, some (MINIAB_CACHE_LOCATION ++ "/" ++ MiniAb._hash likelihood priors, ""),
         .error e⟩

/-- Instance state of MiniAb (miniab.py lines 35-38): likelihood, priors
and the compiled model; no fit result field exists at all. -/
structure MiniAbState where
  _likelihood : String
  _priors : Priors
  model : ModelRef

/-- MiniAb.samples (miniab.py lines 62-64): reads self.fit, which is the
bound fit method, and asks it for stan_variables - an AttributeError on
every instance, fit or not. -/
def MiniAb.samples (st : MiniAbState) : Except PyError Unit :=
  .error (.attributeError
    ("\x27method\x27 object has no attribute \x27stan_variables\x27"))

/-- MiniAb.summary (miniab.py lines 66-68): the body is pass, so the
property returns None - a silent missing-value default, never an error. -/
def MiniAb.summary (st : MiniAbState) : Except PyError (Option Unit) :=
  .ok none

/- ---------------------------------------------------------------------
   Concrete instances used by the C7 counterexample run: a sampler oracle
   whose draws payload is a fixed Nat, and a freshly constructed state.
--------------------------------------------------------------------- -/

/-- An external sampler oracle returning draws payload v on every call. -/
def constSampler (v : Nat) :
    ModelRef → CleanData Nat → Unit → Bool → CmdStanMCMC Nat :=
  fun _ _ _ _ => ⟨v⟩

/-- A freshly constructed (never fit) ABayes instance state. -/
def freshState : ABayesState Nat :=
  ⟨"normal", DEFAULT_PRIORS, .fromExeFile (CACHE_LOCATION ++ "/m"), none, none, none⟩

/-- Two-group data for the counterexample run. -/
def twoGroupData : PyData Nat := .tuple [[0], [1]]

/-- The run that exhibits the stale cached_property: fit with a sampler
whose draws are 1, read draws (priming the cache), re-fit with a sampler
whose draws are 2, read draws again. Returns that final draws value and
the stan_variables of the fit result currently stored. -/
def staleDrawsRun : Option (Nat × Option Nat) :=
  match ABayes.fit (constSampler 1) freshState twoGroupData () with
  | .error _ => none
  | .ok st1 =>
    match ABayes.draws st1 with
    | .error _ => none
    | .ok (_, st1c) =>
      match ABayes.fit (constSampler 2) st1c twoGroupData () with
      | .error _ => none
      | .ok st2 =>
        match ABayes.draws st2 with
        | .error _ => none
        | .ok (v, _) => some (v, st2._fit.map fun f => f.stan_variables)

/-- Substring-of predicate used to state that an error message mentions a
name: sub occurs contiguously inside s. -/
def strContains (s sub : String) : Prop :=
  ∃ pre post, s = pre ++ (sub ++ post)

/- ---------------------------------------------------------------------
   Helper lemmas
--------------------------------------------------------------------- -/

theorem strContains_middle (a b c : String) : strContains (a ++ b ++ c) b :=
  ⟨a, c, String.append_assoc a b c⟩

theorem contains_of_middle (pre post : List String) (x : String) :
    (pre ++ x :: post).contains x = true := by
  simp

/- ---------------------------------------------------------------------
   Claim theorems
--------------------------------------------------------------------- -/

/-- Claim C1: for a mapping with exactly two named vectors, or a
two-element ordered pair of vectors, of sizes m and n, fit builds a
combined observation vector y of length m + n (first group then second), a
group-label vector j of m ones followed by n twos positionally aligned
with y, and a count N = m + n, and submits exactly this combined record to
the external sampler (whose result becomes the stored fit), together with
the passthrough options. -/
theorem C1_fit_builds_combined_record {alpha beta kappa : Type}
    (sampler : ModelRef → CleanData beta → kappa → Bool → CmdStanMCMC alpha)
    (st : ABayesState alpha) (k1 k2 : String) (y1 y2 : List beta) (kw : kappa) :
    let cd : CleanData beta :=
      ⟨y1.length + y2.length,
       List.replicate y1.length 1 ++ List.replicate y2.length 2, y1 ++ y2⟩
    ABayes.fit sampler st (.dict [(k1, y1), (k2, y2)]) kw =
        .ok { st with _fit := some (sampler st.model cd kw true) }
    ∧ ABayes.fit sampler st (.tuple [y1, y2]) kw =
        .ok { st with _fit := some (sampler st.model cd kw true) }
    ∧ cd.y = y1 ++ y2
    ∧ cd.y.length = y1.length + y2.length
    ∧ cd.N = y1.length + y2.length
    ∧ cd.j.length = cd.y.length
    ∧ cd.j.take y1.length = List.replicate y1.length 1
    ∧ cd.j.drop y1.length = List.replicate y2.length 2 := by
  refine ⟨rfl, rfl, rfl, by simp, rfl, by simp, ?_, ?_⟩
  · rw [List.take_left']
    simp
  · rw [List.drop_left']
    simp

/-- Claim C2 (code_bug): the claimed cache policy, proved for
ABayes.compile - when the source file named by the fingerprint is in the
cache and the caller does not force (force is None, the __init__ default,
or False, the compile default), nothing is rendered or written and the
cached executable is reused, wherever the file sits in the directory
listing; when the caller forces, or the file is absent, the model is
rendered, written under the fingerprint-derived name, and compiled from
that file. MiniAb.compile violates the miss branch: its render step
raises a NameError (undefined names env / TemplateNotFoundError), so on a
cache miss it persists only an empty placeholder file and never reaches
compilation - the final conjunct evaluates it at the failing input. -/
theorem C2_compile_cache_policy :
    (∀ (likelihood : String) (priors : Priors) (pre post : List String),
      ABayes.compile likelihood priors none
          (pre ++ (ABayes._hash priors likelihood ++ ".stan") :: post) =
        ⟨false, none,
         .ok (.fromExeFile (CACHE_LOCATION ++ "/" ++ ABayes._hash priors likelihood))⟩)
    ∧ (∀ (likelihood : String) (priors : Priors) (pre post : List String),
      ABayes.compile likelihood priors (some false)
          (pre ++ (ABayes._hash priors likelihood ++ ".stan") :: post) =
        ⟨false, none,
         .ok (.fromExeFile (CACHE_LOCATION ++ "/" ++ ABayes._hash priors likelihood))⟩)
    ∧ (∀ (priors : Priors) (cacheDir : List String),
      ABayes.compile "normal" priors (some true) cacheDir =
        ⟨true,
         some (CACHE_LOCATION ++ "/" ++ (ABayes._hash priors "normal" ++ ".stan"),
               renderTemplate normalTemplate priors),
         .ok (.fromStanFile (.path
           (CACHE_LOCATION ++ "/" ++ (ABayes._hash priors "normal" ++ ".stan"))))⟩)
    ∧ (∀ (priors : Priors),
      ABayes.compile "normal" priors none [] =
        ⟨true,
         some (CACHE_LOCATION ++ "/" ++ (ABayes._hash priors "normal" ++ ".stan"),
               renderTemplate normalTemplate priors),
         .ok (.fromStanFile (.path
           (CACHE_LOCATION ++ "/" ++ (ABayes._hash priors "normal" ++ ".stan"))))⟩)
    ∧ MiniAb.compile "normal" DEFAULT_PRIORS [] =
        ⟨true, some (MINIAB_CACHE_LOCATION ++ "/" ++ "1234", ""),
         .error miniabRenderError⟩ := by
  refine ⟨?_, ?_, fun _ _ => rfl, fun _ => rfl, rfl⟩
  · intro likelihood priors pre post
    simp only [ABayes.compile, pyTruthy, contains_of_middle, Bool.not_true,
      Bool.or_false, Bool.false_or, if_neg, Bool.false_eq_true,
      not_false_eq_true, ite_false]
  · intro likelihood priors pre post
    simp only [ABayes.compile, pyTruthy, contains_of_middle, Bool.not_true,
      Bool.or_false, Bool.false_or, if_neg, Bool.false_eq_true,
      not_false_eq_true, ite_false]

set_option maxRecDepth 100000 in
/-- Claim C3 (code_bug): ABayes._hash is a genuine digest of the ordered
pair (priors, likelihood) - it separates configurations differing only in
the likelihood and only in the priors (determinism is immediate, the
embedding being a pure function of exactly that pair). MiniAb._hash
however returns the fixed placeholder "1234" whatever the priors and
likelihood are, so the fingerprint does not depend on either component:
the last two conjuncts evaluate it at configurations that differ in both
components and get the same fingerprint. -/
theorem C3_fingerprint_of_configuration :
    ABayes._hash DEFAULT_PRIORS "normal" ≠ ABayes._hash DEFAULT_PRIORS "bernoulli"
    ∧ ABayes._hash DEFAULT_PRIORS "normal" ≠
        ABayes._hash [("mu", "normal(0, 2)"), ("sigma", "normal(0, 1)")] "normal"
    ∧ MiniAb._hash "normal" DEFAULT_PRIORS =
        MiniAb._hash "bernoulli" [("mu", "beta(1, 1)")]
    ∧ MiniAb._hash "normal" DEFAULT_PRIORS = "1234" :=
  ⟨by decide, by decide, rfl, rfl⟩

/-- Claim C4 (code_bug): in ABayes, a likelihood name whose lowercase form
has no template makes _render_model - and hence construction, which
renders whenever the fingerprint-named source file is not already cached -
raise a ValueError whose message names the offending likelihood value and
contains every available likelihood name. In MiniAb the same situation
(indeed every call) raises a bare NameError instead, naming neither the
likelihood nor the alternatives: the final conjunct evaluates it. -/
theorem C4_unsupported_likelihood_error :
    (∀ (likelihood : String) (priors : Priors),
      pyLower likelihood ∉ LIKELIHOODS →
        ABayes._render_model likelihood priors =
            .error (.valueError (unsupportedLikelihoodMsg likelihood))
        ∧ strContains (unsupportedLikelihoodMsg likelihood) likelihood
        ∧ strContains (unsupportedLikelihoodMsg likelihood) "normal"
        ∧ strContains (unsupportedLikelihoodMsg likelihood) "bernoulli"
        ∧ ∀ (alpha : Type) (seed : Option Int) (force : Option Bool),
            ABayes.init alpha likelihood priors seed force [] =
              .error (.valueError (unsupportedLikelihoodMsg likelihood)))
    ∧ ∀ (likelihood : String) (priors : Priors),
        MiniAb._render_model likelihood priors = .error miniabRenderError := by
  refine ⟨?_, fun _ _ => rfl⟩
  intro likelihood priors h
  simp only [LIKELIHOODS, List.mem_cons, List.mem_singleton, not_or] at h
  obtain ⟨h1, h2⟩ := h
  have hnone : getTemplate (pyLower likelihood) = none := by
    simp [getTemplate, h1, h2]
  have hrepr : pyReprStrList LIKELIHOODS = "[\x27normal\x27, \x27bernoulli\x27]" := by
    decide
  refine ⟨by simp [ABayes._render_model, hnone], ?_, ?_, ?_, ?_⟩
  · exact ⟨"Cannot build model for likelihood ",
      ".\nLikelihoods available are " ++ (pyReprStrList LIKELIHOODS ++ "."),
      by simp only [unsupportedLikelihoodMsg, String.append_assoc]⟩
  · refine ⟨"Cannot build model for likelihood " ++ likelihood ++
        ".\nLikelihoods available are [\x27", "\x27, \x27bernoulli\x27].", ?_⟩
    have hX : ".\nLikelihoods available are " ++ ("[\x27normal\x27, \x27bernoulli\x27]" ++ ".") =
        ".\nLikelihoods available are [\x27" ++ ("normal" ++ "\x27, \x27bernoulli\x27].") := by
      decide
    rw [unsupportedLikelihoodMsg, hrepr]
    simp only [String.append_assoc]
    rw [hX]
  · refine ⟨"Cannot build model for likelihood " ++ likelihood ++
        ".\nLikelihoods available are [\x27normal\x27, \x27", "\x27].", ?_⟩
    have hY : ".\nLikelihoods available are " ++ ("[\x27normal\x27, \x27bernoulli\x27]" ++ ".") =
        ".\nLikelihoods available are [\x27normal\x27, \x27" ++ ("bernoulli" ++ "\x27].") := by
      decide
    rw [unsupportedLikelihoodMsg, hrepr]
    simp only [String.append_assoc]
    rw [hY]
  · intro alpha seed force
    simp [ABayes.init, ABayes.compile, ABayes._render_model, hnone, pyTruthy]

/-- Witness for C4: the likelihood name "poisson" has no template; the
theorem applies to it and every hypothesis is discharged there. -/
theorem C4_unsupported_likelihood_error_witness :
    (pyLower "poisson" ∉ LIKELIHOODS)
    ∧ (ABayes._render_model "poisson" DEFAULT_PRIORS =
          .error (.valueError (unsupportedLikelihoodMsg "poisson"))
       ∧ strContains (unsupportedLikelihoodMsg "poisson") "poisson"
       ∧ strContains (unsupportedLikelihoodMsg "poisson") "normal"
       ∧ strContains (unsupportedLikelihoodMsg "poisson") "bernoulli"
       ∧ ∀ (alpha : Type) (seed : Option Int) (force : Option Bool),
           ABayes.init alpha "poisson" DEFAULT_PRIORS seed force [] =
             .error (.valueError (unsupportedLikelihoodMsg "poisson")))
    ∧ MiniAb._render_model "poisson" DEFAULT_PRIORS = .error miniabRenderError :=
  ⟨by decide,
   C4_unsupported_likelihood_error.1 "poisson" DEFAULT_PRIORS (by decide),
   C4_unsupported_likelihood_error.2 "poisson" DEFAULT_PRIORS⟩

/-- Claim C5 (code_bug): the before-fit guard, proved for ABayes - a
freshly constructed instance has no fit result and empty accessor caches
(first conjunct), and on any such state all three result accessors raise
the AttributeError "The model has not been fit yet." rather than return a
value (second conjunct; a failed fit returns an error without touching the
state, so every instance with no successful fit has this shape). MiniAb
violates the claim: its summary property body is pass, so it returns the
silent missing-value default None on every instance (third conjunct);
its samples accessor happens to raise an attribute-style error, but only
because it reads the bound fit method (fourth conjunct). -/
theorem C5_accessors_before_fit :
    (∀ (alpha : Type) (likelihood : String) (priors : Priors) (seed : Option Int)
        (force : Option Bool) (cacheDir : List String),
      (ABayes.init alpha likelihood priors seed force cacheDir).map
          (fun st => (st._fit, st.draws_cache, st.summary_cache)) =
        (ABayes.init alpha likelihood priors seed force cacheDir).map
          (fun _ => (none, none, none)))
    ∧ (∀ (alpha : Type) (likelihood : String) (priors : Priors) (model : ModelRef),
        ABayes.draws (⟨likelihood, priors, model, none, none, none⟩ : ABayesState alpha) =
            .error (.attributeError "The model has not been fit yet.")
        ∧ ABayes.summary (⟨likelihood, priors, model, none, none, none⟩ : ABayesState alpha) =
            .error (.attributeError "The model has not been fit yet.")
        ∧ ABayes.inference_data (⟨likelihood, priors, model, none, none, none⟩ : ABayesState alpha) =
            .error (.attributeError "The model has not been fit yet."))
    ∧ (∀ st : MiniAbState, MiniAb.summary st = .ok none)
    ∧ (∀ st : MiniAbState, MiniAb.samples st =
        .error (.attributeError
          ("\x27method\x27 object has no attribute \x27stan_variables\x27"))) := by
  refine ⟨?_, fun _ _ _ _ => ⟨rfl, rfl, rfl⟩, fun _ => rfl, fun _ => rfl⟩
  intro alpha likelihood priors seed force cacheDir
  cases h : (ABayes.compile likelihood priors force cacheDir).result with
  | error e =>
    simp only [ABayes.init, h]
    rfl
  | ok m =>
    simp only [ABayes.init, h]
    rfl

/-- Claim C6: on a fit instance (computing path, summary not yet cached),
the summary accessor requests exactly the likelihood-determined variable
list: mu and mu_diff always, sigma and sigma_diff exactly for the normal
likelihood, mu_prob and mu_prob_diff exactly for the bernoulli
likelihood. -/
theorem C6_summary_variable_list (alpha : Type) (likelihood : String)
    (priors : Priors) (model : ModelRef) (f : CmdStanMCMC alpha)
    (dc : Option alpha) :
    ABayes.summary (⟨likelihood, priors, model, some f, dc, none⟩ : ABayesState alpha) =
        .ok (⟨⟨f⟩, ABayes.summaryVariables likelihood⟩,
             ⟨likelihood, priors, model, some f, dc,
              some ⟨⟨f⟩, ABayes.summaryVariables likelihood⟩⟩)
    ∧ "mu" ∈ ABayes.summaryVariables likelihood
    ∧ "mu_diff" ∈ ABayes.summaryVariables likelihood
    ∧ ("sigma" ∈ ABayes.summaryVariables likelihood ↔ likelihood = "normal")
    ∧ ("sigma_diff" ∈ ABayes.summaryVariables likelihood ↔ likelihood = "normal")
    ∧ ("mu_prob" ∈ ABayes.summaryVariables likelihood ↔ likelihood = "bernoulli")
    ∧ ("mu_prob_diff" ∈ ABayes.summaryVariables likelihood ↔ likelihood = "bernoulli") := by
  by_cases h1 : likelihood = "normal"
  · subst h1
    exact ⟨rfl, by decide, by decide, by decide, by decide, by decide, by decide⟩
  · by_cases h2 : likelihood = "bernoulli"
    · subst h2
      exact ⟨rfl, by decide, by decide, by decide, by decide, by decide, by decide⟩
    · refine ⟨rfl, ?_, ?_, ?_, ?_, ?_, ?_⟩ <;>
        simp [ABayes.summaryVariables, h1, h2]

/-- Claim C7, amended: every successful fit replaces the stored fit result
with the result of that sampling invocation (first conjunct, over an
arbitrary prior state), and inference_data always reflects the currently
stored fit (second conjunct); draws and summary also reflect it provided
their cached_property cache has not been primed by an access after an
earlier fit (third and fourth conjuncts, over states with the respective
cache empty). Once primed, those caches keep the earlier value - see the
counterexample theorem. -/
theorem C7_fit_replaces_stored_result {alpha beta kappa : Type}
    (sampler : ModelRef → CleanData beta → kappa → Bool → CmdStanMCMC alpha)
    (st : ABayesState alpha) (y1 y2 : List beta) (kw : kappa)
    (likelihood : String) (priors : Priors) (model : ModelRef)
    (mc : CmdStanMCMC alpha) (dc : Option alpha) (sc : Option (AzSummary alpha)) :
    ABayes.fit sampler st (.tuple [y1, y2]) kw =
        .ok { st with _fit := some (sampler st.model
          ⟨y1.length + y2.length,
           List.replicate y1.length 1 ++ List.replicate y2.length 2,
           y1 ++ y2⟩ kw true) }
    ∧ ABayes.inference_data { st with _fit := some mc } = .ok ⟨mc⟩
    ∧ ABayes.draws (⟨likelihood, priors, model, some mc, none, sc⟩ : ABayesState alpha) =
        .ok (mc.stan_variables,
             ⟨likelihood, priors, model, some mc, some mc.stan_variables, sc⟩)
    ∧ ABayes.summary (⟨likelihood, priors, model, some mc, dc, none⟩ : ABayesState alpha) =
        .ok (⟨⟨mc⟩, ABayes.summaryVariables likelihood⟩,
             ⟨likelihood, priors, model, some mc, dc,
              some ⟨⟨mc⟩, ABayes.summaryVariables likelihood⟩⟩) :=
  ⟨rfl, rfl, rfl, rfl⟩

/-- Counterexample for C7 as stated: in the concrete run staleDrawsRun -
fit with a sampler whose draws payload is 1, access draws (priming the
cached_property), re-fit with a sampler whose draws payload is 2, access
draws again - the second access still returns 1, although the stored
most recent fit result has stan_variables 2; so an accessor does not
reflect the most recent fit. -/
theorem C7_stale_draws_counterexample :
    staleDrawsRun = some (1, some 2) ∧ (1 : Nat) ≠ 2 :=
  ⟨rfl, by decide⟩

/-- Claim C8: an argument with no iteration protocol at all makes fit
raise the input-validation ValueError, for every sampler oracle, so the
external sampler is never consulted. -/
theorem C8_non_iterable_input_error {alpha beta kappa : Type}
    (sampler : ModelRef → CleanData beta → kappa → Bool → CmdStanMCMC alpha)
    (st : ABayesState alpha) (kw : kappa) :
    ABayes.fit sampler st (.nonIterable : PyData beta) kw =
      .error (.valueError "Data passed to MiniAb.fit must be an iterable.") :=
  rfl

/-- Claim C9: the seed constructor argument is accepted and discarded -
two constructions differing only in the seed yield identical outcomes
(hence identical states, fingerprints, rendered sources, and identical
records and options handed to the sampler by any later fit). -/
theorem C9_seed_has_no_effect (alpha : Type) (likelihood : String)
    (priors : Priors) (seed1 seed2 : Option Int) (force : Option Bool)
    (cacheDir : List String) :
    ABayes.init alpha likelihood priors seed1 force cacheDir =
      ABayes.init alpha likelihood priors seed2 force cacheDir :=
  rfl

/-- Claim C10: an iterable argument with a number of groups other than two
- a mapping with zero, one, or three or more values, or a sequence with
zero, one, or three or more elements - makes fit raise CPython's tuple
unpacking ValueError, identically for every sampler oracle (so before any
sampler invocation) and without producing any successor state (the
exception propagates before the assignment to _fit, leaving the stored
fit result unchanged). -/
theorem C10_wrong_group_count_error {alpha beta kappa : Type}
    (sampler : ModelRef → CleanData beta → kappa → Bool → CmdStanMCMC alpha)
    (st : ABayesState alpha) (kw : kappa) (kv kv1 kv2 kv3 : String × List beta)
    (kvrest : List (String × List beta)) (v v1 v2 v3 : List beta)
    (vrest : List (List beta)) :
    ABayes.fit sampler st (.dict []) kw =
        .error (.valueError "not enough values to unpack (expected 2, got 0)")
    ∧ ABayes.fit sampler st (.dict [kv]) kw =
        .error (.valueError "not enough values to unpack (expected 2, got 1)")
    ∧ ABayes.fit sampler st (.dict (kv1 :: kv2 :: kv3 :: kvrest)) kw =
        .error (.valueError "too many values to unpack (expected 2)")
    ∧ ABayes.fit sampler st (.tuple []) kw =
        .error (.valueError "not enough values to unpack (expected 2, got 0)")
    ∧ ABayes.fit sampler st (.tuple [v]) kw =
        .error (.valueError "not enough values to unpack (expected 2, got 1)")
    ∧ ABayes.fit sampler st (.tuple (v1 :: v2 :: v3 :: vrest)) kw =
        .error (.valueError "too many values to unpack (expected 2)") :=
  ⟨rfl, rfl, rfl, rfl, rfl, rfl⟩
